import Mathlib

/-!
Shallow embedding of the AiBotique fashion recommendation engine
(`src/server_py/ml_recommendations.py`, `src/server_py/utils/recommender.py`).

Python floats are modelled as exact rationals (ℚ), Python ints as ℤ,
optional dictionary keys as `Option` fields, and raised exceptions as
`Except String` results.  Process-specific behaviour of CPython (string
hashing, set iteration order) is made explicit through a `PyEnv` record.
-/

/-- Rounds a rational to the nearest integer, ties to even, mirroring the
ideal semantics of Python's built-in `round`. -/
def roundHalfEven (x : ℚ) : ℤ :=
  let f := ⌊x⌋
  if x - f < 1/2 then f
  else if 1/2 < x - f then f + 1
  else if f % 2 = 0 then f else f + 1

/-- Python `round(x, d)`: rounding to `d` decimal places, ties to even. -/
def pyRoundTo (d : ℕ) (x : ℚ) : ℚ :=
  (roundHalfEven (x * (10:ℚ)^d) : ℚ) / (10:ℚ)^d

/-- Python substring test `needle in haystack`. -/
def strContains (haystack needle : String) : Bool :=
  haystack.toList.tails.any (fun t => needle.toList.isPrefixOf t)

/-- Stable insertion of `x` into a list sorted by `key` descending; `x` goes
after every entry whose key is at least its own, which is how a stable
descending sort orders equal keys. -/
def insertDescBy {α : Type*} (key : α → ℚ) (x : α) : List α → List α
  | [] => [x]
  | y :: ys => if key y < key x then x :: y :: ys else y :: insertDescBy key x ys

/-- Stable sort by `key` descending, the behaviour of Python's
`list.sort(key=..., reverse=True)`. -/
def sortDescBy {α : Type*} (key : α → ℚ) (l : List α) : List α :=
  l.foldl (fun acc x => insertDescBy key x acc) []

/-- A product row of the `products` table
(`ml_recommendations.py` load_product_features / get_product_details). -/
structure ProductRow where
  id : ℤ
  name : String
  brand : String
  category : String
  subcategory : String
  color : String
  price : ℚ
  image_url : String
  target_gender : String
  target_age_min : ℤ
  target_age_max : ℤ
  season : String
  material : String
  popularity_score : ℚ
  in_stock : Bool
deriving DecidableEq

/-- A user-preference dictionary with the optional keys read by
`calculate_preference_score` and `create_outfit_from_products`. -/
structure Prefs where
  gender : Option String := none
  color : Option String := none
  style : Option String := none
  budget : Option ℚ := none
  age : Option ℤ := none
deriving DecidableEq

/-- One garment line of an outfit dictionary. -/
structure OutfitItem where
  type : String
  name : String
  brand : String
  price : ℚ
  image_url : String
deriving DecidableEq

/-- An outfit dictionary as produced by `create_outfit_from_products` and by
`get_fallback_recommendations` in `ml_recommendations.py`. -/
structure MLOutfit where
  outfit_id : String
  name : String
  description : String
  items : List OutfitItem
  total_price : ℚ
  style : String
  color_scheme : String
  target_gender : String
  target_age : String
  in_stock : Bool
deriving DecidableEq

/-- Embeds `calculate_preference_score` (ml_recommendations.py, lines
284-324): sequential `score +=` updates guarded by the presence of each
preference key. -/
def calculate_preference_score (product : ProductRow) (preferences : Prefs) : ℚ :=
  let s0 : ℚ := 0
  let s1 := match preferences.gender with
    | none => s0
    | some g =>
      if product.target_gender = "unisex" ∨ product.target_gender = g then s0 + 30 else s0 - 20
  let s2 := match preferences.color with
    | none => s1
    | some c => if product.color.toLower = c.toLower then s1 + 25 else s1
  let s3 := match preferences.style with
    | none => s2
    | some st => if product.category.toLower = st.toLower then s2 + 25 else s2
  let s4 := match preferences.budget with
    | none => s3
    | some b =>
      if product.price ≤ b then (if product.price ≤ b * (1/2) then s3 + 15 else s3 + 10)
      else s3 - 15
  let s5 := match preferences.age with
    | none => s4
    | some a =>
      if product.target_age_min ≤ a ∧ a ≤ product.target_age_max then s4 + 20
      else if (a - product.target_age_min).natAbs ≤ 5 ∨ (a - product.target_age_max).natAbs ≤ 5
        then s4 + 10 else s4
  s5 + product.popularity_score * (1/10)

/-- Gender rule exactly as the specification words it: unisex or exact
match gives +30, a mismatch gives -20, skipped when the key is absent. -/
def genderRule (product : ProductRow) (preferences : Prefs) : ℚ :=
  match preferences.gender with
  | none => 0
  | some g =>
    if product.target_gender = "unisex" ∨ product.target_gender = g then 30 else -20

/-- Color rule as the specification words it: case-insensitive exact match
gives +25. -/
def colorRule (product : ProductRow) (preferences : Prefs) : ℚ :=
  match preferences.color with
  | none => 0
  | some c => if product.color.toLower = c.toLower then 25 else 0

/-- Style rule as the specification words it: case-insensitive exact match
of category against the style preference gives +25. -/
def styleRule (product : ProductRow) (preferences : Prefs) : ℚ :=
  match preferences.style with
  | none => 0
  | some st => if product.category.toLower = st.toLower then 25 else 0

/-- Budget rule as the specification words it: within budget gives +15 when
price is at most half the budget and +10 otherwise; over budget gives -15. -/
def budgetRule (product : ProductRow) (preferences : Prefs) : ℚ :=
  match preferences.budget with
  | none => 0
  | some b =>
    if product.price ≤ b then (if product.price ≤ b * (1/2) then 15 else 10) else -15

/-- Age rule as the specification words it: inside the target range gives
+20, within five years of either bound gives +10, otherwise nothing. -/
def ageRule (product : ProductRow) (preferences : Prefs) : ℚ :=
  match preferences.age with
  | none => 0
  | some a =>
    if product.target_age_min ≤ a ∧ a ≤ product.target_age_max then 20
    else if (a - product.target_age_min).natAbs ≤ 5 ∨ (a - product.target_age_max).natAbs ≤ 5
      then 10 else 0

/-- Popularity rule as the specification words it: 0.1 times the
popularity score, always applied. -/
def popularityRule (product : ProductRow) : ℚ :=
  (1/10) * product.popularity_score

/-- State of the `FashionRecommendationEngine` read by the collaborative
path: the trained SVD predictor (`none` before `train_collaborative_filtering`
has run), the row index (user ids) and column index (product ids) of the
pivoted user-item matrix, the rating entries of that matrix (0 for absent
pairs), and the product table.  The predictor function abstracts the dot
product of the user's latent factors with each item's latent factors. -/
structure Engine where
  svd_model : Option (ℤ → ℤ → ℚ)
  users : List ℤ
  cols : List ℤ
  rating : ℤ → ℤ → ℚ
  db : List ProductRow

/-- Embeds `get_popular_items` (ml_recommendations.py, lines 345-360): the
in-stock products ordered by popularity_score descending, limited to `n`,
as (id, popularity_score) pairs. -/
def get_popular_items (db : List ProductRow) (n : ℕ) : List (ℤ × ℚ) :=
  ((sortDescBy (fun p => p.popularity_score) (db.filter (fun p => p.in_stock))).take n).map
    (fun p => (p.id, p.popularity_score))

/-- Embeds `get_collaborative_recommendations` (ml_recommendations.py,
lines 113-147).  An untrained model raises; a user id absent from the
matrix index falls back to `get_popular_items`.  In the trained branch the
CPython source iterates `list(all_items - user_items)`, a set difference
whose iteration order is a hash-table artefact; it is modelled here in
column order. -/
def get_collaborative_recommendations (eng : Engine) (user_id : ℤ) (n : ℕ) :
    Except String (List (ℤ × ℚ)) :=
  match eng.svd_model with
  | none => Except.error "Collaborative filtering model not trained"
  | some predict =>
    if user_id ∈ eng.users then
      let unrated := eng.cols.filter (fun c => !decide (0 < eng.rating user_id c))
      let recommendations := unrated.map (fun c => (c, predict user_id c))
      Except.ok ((sortDescBy (fun r => r.2) recommendations).take n)
    else
      Except.ok (get_popular_items eng.db n)

/-- A scored entry of the hybrid blend before product details are joined. -/
structure HRec where
  product_id : ℤ
  score : ℚ
  source : String
deriving DecidableEq

/-- A final hybrid recommendation: the joined product row plus the scaled
score and the source tag. -/
structure FinalRec where
  product : ProductRow
  recommendation_score : ℚ
  recommendation_source : String
deriving DecidableEq

/-- Embeds `get_product_details`: the first in-stock product row with the
requested id, if any. -/
def get_product_details (db : List ProductRow) (product_id : ℤ) : Option ProductRow :=
  db.find? (fun q => q.id == product_id && q.in_stock)

/-- Candidate list of `get_hybrid_recommendations` (ml_recommendations.py,
lines 181-206): collaborative results scaled by 0.6 are appended first,
then preference-driven results scaled by 0.4; a failing source contributes
nothing (its exception is caught and logged). -/
def hybridCandidates (cfRes contentRes : Except String (List (ℤ × ℚ))) : List HRec :=
  (match cfRes with
    | Except.ok l => l.map (fun pr => ⟨pr.1, pr.2 * (6/10), "collaborative"⟩)
    | Except.error _ => []) ++
  (match contentRes with
    | Except.ok l => l.map (fun pr => ⟨pr.1, pr.2 * (4/10), "content"⟩)
    | Except.error _ => [])

/-- Deduplication loop of `get_hybrid_recommendations` (lines 209-214):
keep an entry only when its product_id has not been seen yet. -/
def dedupFirstHR (seen : List ℤ) : List HRec → List HRec
  | [] => []
  | r :: rs =>
    if r.product_id ∈ seen then dedupFirstHR seen rs
    else r :: dedupFirstHR (r.product_id :: seen) rs

/-- Embeds `get_hybrid_recommendations` (ml_recommendations.py, lines
179-229) given the outcome of its two scoring sources: concatenate and tag,
deduplicate keeping first occurrence, sort by scaled score descending,
truncate to `n`, then join product details and drop entries whose details
do not resolve. -/
def get_hybrid_recommendations (cfRes contentRes : Except String (List (ℤ × ℚ)))
    (db : List ProductRow) (n : ℕ) : List FinalRec :=
  let recommendations := hybridCandidates cfRes contentRes
  let unique := dedupFirstHR [] recommendations
  let sorted := sortDescBy (fun r => r.score) unique
  (sorted.take n).filterMap (fun r =>
    (get_product_details db r.product_id).map (fun pd => ⟨pd, r.score, r.source⟩))

/-- Slot classification table of `create_outfit_from_products` (lines
388-397): category lists decide top and bottom, subcategory shoes decides
shoes, anything else is an accessory. -/
def itemType (p : ProductRow) : String :=
  if p.category ∈ ["shirts", "tops", "hoodies", "jackets"] then "top"
  else if p.category ∈ ["jeans", "trousers", "shorts"] then "bottom"
  else if p.subcategory = "shoes" then "shoes"
  else "accessory"

/-- The `item_types` dictionary of `create_outfit_from_products`: at most
one product is held per slot. -/
structure SlotState where
  top : Option ProductRow
  bottom : Option ProductRow
  shoes : Option ProductRow
  accessory : Option ProductRow

/-- Tests whether the slot named `t` is already occupied.  Strings other
than top, bottom and shoes read the accessory slot, matching the slot names
produced by `itemType`. -/
def slotTaken (st : SlotState) (t : String) : Bool :=
  if t = "top" then st.top.isSome
  else if t = "bottom" then st.bottom.isSome
  else if t = "shoes" then st.shoes.isSome
  else st.accessory.isSome

/-- Occupies the slot named `t` with product `p`. -/
def slotSet (st : SlotState) (t : String) (p : ProductRow) : SlotState :=
  if t = "top" then { st with top := some p }
  else if t = "bottom" then { st with bottom := some p }
  else if t = "shoes" then { st with shoes := some p }
  else { st with accessory := some p }

/-- The outfit-item dictionary appended for a product that wins slot `t`. -/
def mkOutfitItem (t : String) (p : ProductRow) : OutfitItem :=
  ⟨t, p.name, p.brand, p.price, p.image_url⟩

/-- The slot-assignment loop of `create_outfit_from_products` (lines
388-409): the first product encountered for a slot wins, later products of
the same slot are discarded; returns the accepted items in encounter order
together with their total price. -/
def assembleGo : List ProductRow → SlotState → List OutfitItem × ℚ
  | [], _ => ([], 0)
  | p :: ps, st =>
    let t := itemType p
    if slotTaken st t then assembleGo ps st
    else
      let rest := assembleGo ps (slotSet st t p)
      (mkOutfitItem t p :: rest.1, p.price + rest.2)

/-- The empty `item_types` dictionary. -/
def emptySlots : SlotState := ⟨none, none, none, none⟩

/-- Embeds `create_outfit_from_products` (ml_recommendations.py, lines
382-426): run slot assignment, and emit the outfit dictionary only when at
least 2 items were accepted. -/
def create_outfit_from_products (products : List ProductRow) (user_preferences : Prefs) :
    Option MLOutfit :=
  let res := assembleGo products emptySlots
  if 2 ≤ res.1.length then
    some
      { outfit_id := "generated_" ++ toString res.1.length
        name := user_preferences.style.getD "Casual" ++ " " ++
          user_preferences.color.getD "Multi" ++ " Outfit"
        description := "Complete " ++ user_preferences.style.getD "casual" ++
          " outfit with " ++ toString res.1.length ++ " items"
        items := res.1
        total_price := res.2
        style := user_preferences.style.getD "casual"
        color_scheme := user_preferences.color.getD "multi"
        target_gender := user_preferences.gender.getD "unisex"
        target_age := toString (user_preferences.age.getD 25)
        in_stock := true }
  else none

/-- First-occurrence key order of a Python dict built by insertion, used by
the style grouping of `create_complete_outfits`. -/
def firstKeys (seen : List String) : List String → List String
  | [] => []
  | c :: cs => if c ∈ seen then firstKeys seen cs else c :: firstKeys (c :: seen) cs

/-- Embeds `create_complete_outfits` (ml_recommendations.py, lines
362-380): group recommendations by category in first-appearance order,
assemble an outfit per group, and keep the first 5. -/
def create_complete_outfits (recommendations : List ProductRow) (user_preferences : Prefs) :
    List MLOutfit :=
  let keys := firstKeys [] (recommendations.map (fun r => r.category))
  (keys.filterMap (fun key =>
    create_outfit_from_products (recommendations.filter (fun r => r.category == key))
      user_preferences)).take 5

/-- The static pool of `get_fallback_recommendations` (ml_recommendations.py,
lines 484-501): a single hard-coded outfit. -/
def fallback_outfits : List MLOutfit :=
  [{ outfit_id := "fallback_1"
     name := "Classic Casual Outfit"
     description := "A comfortable and stylish casual outfit"
     items :=
       [⟨"top", "White T-Shirt", "Basic", 799,
          "https://images.unsplash.com/photo-1521572163474-6864f9cf17ab?w=200&h=200&fit=crop"⟩,
        ⟨"bottom", "Blue Jeans", "Denim Co", 2499,
          "https://images.unsplash.com/photo-1542291026-7eec264c27ff?w=200&h=200&fit=crop"⟩,
        ⟨"shoes", "White Sneakers", "Sports", 3999,
          "https://images.unsplash.com/photo-1549298916-b41d501d3772?w=200&h=200&fit=crop"⟩]
     total_price := 7297
     style := "casual"
     color_scheme := "blue_white"
     target_gender := "unisex"
     target_age := "20-30"
     in_stock := true }]

/-- Embeds `get_fallback_recommendations` (ml_recommendations.py, lines
481-503): the Python expression `fallback_outfits * min(k, len(fallback_outfits))`,
that is, the pool concatenated with itself `min k (pool length)` times. -/
def get_fallback_recommendations (k : ℕ) : List MLOutfit :=
  (List.replicate (min k fallback_outfits.length) fallback_outfits).flatten

/-- Embeds `get_fashion_recommendations` (ml_recommendations.py, lines
459-479).  The argument stands for the outcome of the personalization path
(database connection, model training and `get_recommendations_for_user`):
a raised exception or a list of outfits.  Any exception is caught and
replaced by the fallback output; a successful result is truncated to `k`. -/
def get_fashion_recommendations (pipeline : Except String (List MLOutfit)) (k : ℕ) :
    List MLOutfit :=
  match pipeline with
  | Except.ok recommendations => recommendations.take k
  | Except.error _ => get_fallback_recommendations k

/-- An outfit of the static catalog returned by `load_products`
(utils/recommender.py, lines 134-277). -/
structure CatalogOutfit where
  outfit_id : String
  name : String
  target_gender : String
  target_age : String
  category : String
  color_scheme : String
  total_price : ℚ
  items : List OutfitItem
  description : String
  in_stock : Bool
deriving DecidableEq

/-- Embeds `load_products` (utils/recommender.py, lines 134-277): the eight
hard-coded complete outfits. -/
def load_products : List CatalogOutfit :=
  [{ outfit_id := "outfit_001"
     name := "Business Professional Outfit"
     target_gender := "male"
     target_age := "25-45"
     category := "business"
     color_scheme := "navy"
     total_price := 12497
     items :=
       [⟨"top", "White Formal Shirt", "Office Wear", 1899,
          "https://images.unsplash.com/photo-1596755094514-f87e40cc0606?w=200&h=200&fit=crop"⟩,
        ⟨"bottom", "Navy Blue Trousers", "Formal Wear Co", 3499,
          "https://images.unsplash.com/photo-1594634319951-eb4e2a6eb4e3?w=200&h=200&fit=crop"⟩,
        ⟨"shoes", "Brown Formal Shoes", "Executive Style", 3999,
          "https://images.unsplash.com/photo-1549298916-b41d501d3772?w=200&h=200&fit=crop"⟩,
        ⟨"accessory", "Brown Leather Belt", "Accessories Plus", 1499,
          "https://images.unsplash.com/photo-1544967348-c7ceb6ec5ec0?w=200&h=200&fit=crop"⟩,
        ⟨"accessory", "Silver Watch", "Time Style", 2599,
          "https://images.unsplash.com/photo-1523275335684-37898b6baf30?w=200&h=200&fit=crop"⟩]
     description := "Complete professional business outfit for office meetings"
     in_stock := true },
   { outfit_id := "outfit_002"
     name := "Casual Streetwear Look"
     target_gender := "male"
     target_age := "18-30"
     category := "streetwear"
     color_scheme := "blue"
     total_price := 8497
     items :=
       [⟨"top", "Blue Streetwear Hoodie", "Urban Style", 2999,
          "https://images.unsplash.com/photo-1516851295518-3b29f0e2b876?w=200&h=200&fit=crop"⟩,
        ⟨"bottom", "Black Denim Jeans", "Denim Co", 2499,
          "https://images.unsplash.com/photo-1542291026-7eec264c27ff?w=200&h=200&fit=crop"⟩,
        ⟨"shoes", "White Sneakers", "Street Kicks", 3999,
          "https://images.unsplash.com/photo-1549298916-b41d501d3772?w=200&h=200&fit=crop"⟩]
     description := "Trendy streetwear outfit for casual outings"
     in_stock := true },
   { outfit_id := "outfit_003"
     name := "Sporty Athletic Look"
     target_gender := "male"
     target_age := "16-35"
     category := "sporty"
     color_scheme := "gray"
     total_price := 5497
     items :=
       [⟨"top", "Gray Athletic T-Shirt", "Athletic Pro", 1299,
          "https://images.unsplash.com/photo-1521572163474-6864f9cf17ab?w=200&h=200&fit=crop"⟩,
        ⟨"bottom", "Black Track Pants", "Athletic Pro", 1499,
          "https://images.unsplash.com/photo-1586790170083-2c9cadedfd79?w=200&h=200&fit=crop"⟩,
        ⟨"shoes", "Red Running Shoes", "Athletic Pro", 5499,
          "https://images.unsplash.com/photo-1542291026-7eec264c27ff?w=200&h=200&fit=crop"⟩]
     description := "Comfortable athletic outfit for workouts and sports"
     in_stock := true },
   { outfit_id := "outfit_004"
     name := "Elegant Evening Look"
     target_gender := "female"
     target_age := "25-40"
     category := "elegant"
     color_scheme := "black"
     total_price := 15497
     items :=
       [⟨"top", "Black Evening Dress", "Sophisticate", 5799,
          "https://images.unsplash.com/photo-1539008835657-9e8e9680c956?w=200&h=200&fit=crop"⟩,
        ⟨"shoes", "Black Heels", "Elegant Steps", 3299,
          "https://images.unsplash.com/photo-1549298916-b41d501d3772?w=200&h=200&fit=crop"⟩,
        ⟨"accessory", "Gold Clutch Bag", "Luxury Bags", 4499,
          "https://images.unsplash.com/photo-1553062407-98eeb64c613e?w=200&h=200&fit=crop"⟩,
        ⟨"accessory", "Gold Earrings", "Jewelry Plus", 1899,
          "https://images.unsplash.com/photo-1596944924617-7cfdf483c77e?w=200&h=200&fit=crop"⟩]
     description := "Elegant evening outfit for special occasions"
     in_stock := true },
   { outfit_id := "outfit_005"
     name := "Casual Summer Look"
     target_gender := "female"
     target_age := "18-30"
     category := "casual"
     color_scheme := "yellow"
     total_price := 6797
     items :=
       [⟨"top", "Yellow Summer Dress", "Sunny Style", 2299,
          "https://images.unsplash.com/photo-1515372039744-b8e2a921672c?w=200&h=200&fit=crop"⟩,
        ⟨"shoes", "Beige Flats", "Comfort Zone", 1999,
          "https://images.unsplash.com/photo-1549298916-b41d501d3772?w=200&h=200&fit=crop"⟩,
        ⟨"accessory", "Brown Sunglasses", "Sun Style", 2499,
          "https://images.unsplash.com/photo-1473496169904-658ba7c44d8a?w=200&h=200&fit=crop"⟩]
     description := "Bright and comfortable summer outfit"
     in_stock := true },
   { outfit_id := "outfit_006"
     name := "Modern Office Look"
     target_gender := "female"
     target_age := "25-35"
     category := "business"
     color_scheme := "gray"
     total_price := 13497
     items :=
       [⟨"top", "Gray Business Blazer", "Power Dress", 4499,
          "https://images.unsplash.com/photo-1584952796400-b9c0c7a87230?w=200&h=200&fit=crop"⟩,
        ⟨"bottom", "Black Formal Trousers", "Power Dress", 2999,
          "https://images.unsplash.com/photo-1594634319951-eb4e2a6eb4e3?w=200&h=200&fit=crop"⟩,
        ⟨"top", "White Blouse", "Office Wear", 1899,
          "https://images.unsplash.com/photo-1483985988355-763628e1915e?w=200&h=200&fit=crop"⟩,
        ⟨"shoes", "Black Pumps", "Elegant Steps", 2599,
          "https://images.unsplash.com/photo-1549298916-b41d501d3772?w=200&h=200&fit=crop"⟩,
        ⟨"accessory", "Black Handbag", "Fashion Hub", 1499,
          "https://images.unsplash.com/photo-1553062407-98eeb64c613e?w=200&h=200&fit=crop"⟩]
     description := "Professional business outfit for modern women"
     in_stock := true },
   { outfit_id := "outfit_007"
     name := "Casual Weekend Look"
     target_gender := "unisex"
     target_age := "18-35"
     category := "casual"
     color_scheme := "blue"
     total_price := 7497
     items :=
       [⟨"top", "Blue Denim Jacket", "Retro Style", 3499,
          "https://images.unsplash.com/photo-1574323387217-5d5c9e0c0746?w=200&h=200&fit=crop"⟩,
        ⟨"top", "White T-Shirt", "Comfort Wear", 799,
          "https://images.unsplash.com/photo-1521572163474-6864f9cf17ab?w=200&h=200&fit=crop"⟩,
        ⟨"bottom", "Blue Denim Jeans", "Denim Co", 2499,
          "https://images.unsplash.com/photo-1542291026-7eec264c27ff?w=200&h=200&fit=crop"⟩,
        ⟨"shoes", "White Sneakers", "Street Kicks", 3999,
          "https://images.unsplash.com/photo-1549298916-b41d501d3772?w=200&h=200&fit=crop"⟩]
     description := "Comfortable casual outfit for weekends"
     in_stock := true },
   { outfit_id := "outfit_008"
     name := "Sporty Fitness Look"
     target_gender := "unisex"
     target_age := "16-40"
     category := "sporty"
     color_scheme := "black"
     total_price := 6997
     items :=
       [⟨"top", "Black Athletic Top", "Fit Gear", 1999,
          "https://images.unsplash.com/photo-1571019613454-1cb2f99b2d8b?w=200&h=200&fit=crop"⟩,
        ⟨"bottom", "Black Sports Shorts", "Athletic Pro", 1299,
          "https://images.unsplash.com/photo-1594634319951-eb4e2a6eb4e3?w=200&h=200&fit=crop"⟩,
        ⟨"shoes", "White Running Shoes", "Athletic Pro", 4499,
          "https://images.unsplash.com/photo-1542291026-7eec264c27ff?w=200&h=200&fit=crop"⟩,
        ⟨"accessory", "Sports Watch", "Time Style", 1999,
          "https://images.unsplash.com/photo-1523275335684-37898b6baf30?w=200&h=200&fit=crop"⟩]
     description := "Complete fitness outfit for workouts"
     in_stock := true }]

/-- The request profile dictionary with its optional keys. -/
structure UserProfile where
  user_id : Option ℤ := none
  age : Option ℤ := none
  gender : Option String := none
  color_pref : Option String := none
  style_pref : Option String := none
  budget : Option ℚ := none
deriving DecidableEq

/-- Parses an age-range string of the form written in the static catalog,
as `map(int, target_age.split("-"))` unpacked into two values does. -/
def parseAgeRange (s : String) : Option (ℤ × ℤ) :=
  match s.splitOn "-" with
  | [a, b] =>
    match a.toInt?, b.toInt? with
    | some x, some y => some (x, y)
    | _, _ => none
  | _ => none

/-- Scoring loop body of `recommend_products` (utils/recommender.py, lines
297-343).  On an age string that does contain a dash but does not parse as
two integers Python would raise; that branch is unreachable for the static
pool, and is modelled as adding nothing. -/
def scoreCatalogOutfit (outfit : CatalogOutfit) (user_age : ℤ)
    (user_gender user_color user_style : String) (user_budget : ℚ) : ℚ :=
  let s0 : ℚ := 0
  let s1 := if outfit.target_gender = "unisex" ∨ outfit.target_gender = user_gender
    then s0 + 50 else s0 - 30
  let s2 := if outfit.category.toLower = user_style then s1 + 40
    else if strContains outfit.category.toLower user_style then s1 + 20 else s1
  let s3 := if outfit.color_scheme.toLower = user_color then s2 + 30
    else if strContains outfit.color_scheme.toLower user_color then s2 + 15 else s2
  let s4 := if outfit.target_age ≠ "" ∧ strContains outfit.target_age "-" then
      match parseAgeRange outfit.target_age with
      | some (mn, mx) =>
        if mn ≤ user_age ∧ user_age ≤ mx then s3 + 20
        else if (user_age - mn).natAbs ≤ 5 ∨ (user_age - mx).natAbs ≤ 5 then s3 + 10
        else s3
      | none => s3
    else s3
  let s5 := if outfit.total_price ≤ user_budget then
      (if outfit.total_price ≤ user_budget * (1/2) then s4 + 15 else s4 + 10)
    else s4 - 20
  if outfit.in_stock then s5 + 10 else s5 - 30

/-- A recommendation dictionary emitted by `recommend_products`. -/
structure CatalogRec where
  outfit_id : String
  name : String
  description : String
  score : ℚ
  style : String
  color_scheme : String
  total_price : ℚ
  items : List OutfitItem
  target_gender : String
  target_age : String
  in_stock : Bool
deriving DecidableEq

/-- Embeds `recommend_products` (utils/recommender.py, lines 280-364):
score every outfit of the static pool against the resolved profile, sort by
score descending (stable), truncate to `k` and shape the output records. -/
def recommend_products (user_profile : UserProfile) (k : ℕ) : List CatalogRec :=
  let outfits := load_products
  if outfits.isEmpty then [] else
  let user_age := user_profile.age.getD 25
  let user_gender := (user_profile.gender.getD "male").toLower
  let user_color := (user_profile.color_pref.getD "blue").toLower
  let user_style := (user_profile.style_pref.getD "casual").toLower
  let user_budget := user_profile.budget.getD 1000
  let scored_outfits := outfits.map
    (fun o => (scoreCatalogOutfit o user_age user_gender user_color user_style user_budget, o))
  let sorted := sortDescBy (fun x => x.1) scored_outfits
  (sorted.take k).map (fun x =>
    { outfit_id := x.2.outfit_id
      name := x.2.name
      description := x.2.description
      score := pyRoundTo 2 x.1
      style := x.2.category
      color_scheme := x.2.color_scheme
      total_price := x.2.total_price
      items := x.2.items
      target_gender := x.2.target_gender
      target_age := x.2.target_age
      in_stock := x.2.in_stock })

/-- Process-level behaviour of the CPython runtime that the deterministic
fallback of `get_recommendations` observes: the salted string hash, and the
iteration order of `list(set(xs))`, which is guaranteed only to enumerate
the distinct elements of `xs` in some order. -/
structure PyEnv where
  hash : String → ℤ
  setList : List String → List String
  setList_perm : ∀ xs : List String, List.Perm (setList xs) xs.dedup

/-- The styles table of `get_recommendations`. -/
def fbStyles : List String :=
  ["casual", "formal", "streetwear", "business", "sporty", "elegant", "vintage", "modern"]

/-- The colors table of `get_recommendations`. -/
def fbColors : List String :=
  ["black", "white", "blue", "red", "green", "purple", "brown", "gray", "yellow", "pink"]

/-- Age-conditioned style pool (utils/recommender.py, lines 406-411). -/
def ageStylesOf (user_age : ℤ) : List String :=
  if user_age < 25 then ["casual", "sporty", "streetwear", "modern"]
  else if user_age < 35 then ["casual", "business", "modern", "elegant"]
  else ["formal", "business", "elegant", "vintage"]

/-- Budget-conditioned style pool (utils/recommender.py, lines 413-419). -/
def budgetStylesOf (user_budget : ℚ) : List String :=
  if 5000 < user_budget then ["formal", "elegant", "business", "vintage"]
  else if 2000 < user_budget then ["business", "modern", "casual", "elegant"]
  else ["casual", "sporty", "streetwear"]

/-- The seed of the dependency-free path of `get_recommendations`
(utils/recommender.py, lines 375-380): a weighted combination of the
normalized age, a gender indicator, the hashed color and style preferences
and the normalized budget.  Note the defaults used here (age 28, gender f,
color black, style streetwear, budget 100) differ from the ones used for
the entries themselves. -/
def fbBase (env : PyEnv) (p : UserProfile) : ℚ :=
  ((p.age.getD 28 : ℚ) / 100) * (4/10) +
  (if ((p.gender.getD "f").toLower).startsWith "f" then (1:ℚ) else 0) * (1/10) +
  ((((env.hash (p.color_pref.getD "black")).natAbs % 100 : ℕ) : ℚ) / 100) * (25/100) +
  ((((env.hash (p.style_pref.getD "streetwear")).natAbs % 100 : ℕ) : ℚ) / 100) * (15/100) +
  ((p.budget.getD 100) / 1000) * (1/10)

/-- Style and color selection for the entry at position `i` of the
dependency-free path (utils/recommender.py, lines 393-426): position 0
mirrors the profile, position 1 cycles the color, position 2 cycles the
style, and later positions draw from the age- and budget-conditioned pools
with colors cycled by doubling.  `list.index` on an unknown color or style
raises ValueError. -/
def fbStyleColor (env : PyEnv) (p : UserProfile) (i : ℕ) : Except String (String × String) :=
  let user_style := p.style_pref.getD "casual"
  let user_color := p.color_pref.getD "black"
  let user_age := p.age.getD 25
  let user_budget := p.budget.getD 1000
  if i = 0 then Except.ok (user_style, user_color)
  else if i = 1 then
    match fbColors.findIdx? (fun c => c == user_color) with
    | none => Except.error "ValueError: color_pref is not in list"
    | some idx => Except.ok (user_style, fbColors.getD ((idx + 1) % fbColors.length) "")
  else if i = 2 then
    match fbStyles.findIdx? (fun st => st == user_style) with
    | none => Except.error "ValueError: style_pref is not in list"
    | some idx => Except.ok (fbStyles.getD ((idx + 1) % fbStyles.length) "", user_color)
  else
    let preferred_styles := env.setList (ageStylesOf user_age ++ budgetStylesOf user_budget)
    if preferred_styles.isEmpty then Except.error "ZeroDivisionError"
    else Except.ok (preferred_styles.getD (i % preferred_styles.length) "",
      fbColors.getD ((i * 2) % fbColors.length) "")

/-- Python format `itm_{i:03d}`: zero-padding to width 3. -/
def pad3 (i : ℕ) : String :=
  if i < 10 then "00" ++ toString i
  else if i < 100 then "0" ++ toString i
  else toString i

/-- An entry emitted by the dependency-free path of `get_recommendations`. -/
structure FbRec where
  item_id : String
  name : String
  score : ℚ
  style : String
  color : String
deriving DecidableEq

/-- The record appended for position `i` (utils/recommender.py, lines
428-434): the seed decremented by 0.02 per position and rounded to four
decimal places. -/
def mkFbRec (base : ℚ) (i : ℕ) (sc : String × String) : FbRec :=
  { item_id := "itm_" ++ pad3 i
    name := "Recommended Outfit " ++ toString (i + 1)
    score := pyRoundTo 4 (base - (i : ℚ) * (2/100))
    style := sc.1
    color := sc.2 }

/-- The `for i in range(k)` loop of the dependency-free path, building the
entries from position `i` for `cnt` further positions; the first raised
exception aborts the whole call. -/
def fbGo (env : PyEnv) (p : UserProfile) (base : ℚ) : ℕ → ℕ → Except String (List FbRec)
  | _, 0 => Except.ok []
  | i, cnt + 1 =>
    match fbStyleColor env p i with
    | Except.error e => Except.error e
    | Except.ok sc =>
      match fbGo env p base (i + 1) cnt with
      | Except.error e => Except.error e
      | Except.ok rest => Except.ok (mkFbRec base i sc :: rest)

/-- Embeds the dependency-free deterministic branch of `get_recommendations`
(utils/recommender.py, lines 374-435), taken when the heavy dependencies or
the model artifact are missing. -/
def get_recommendations_fb (env : PyEnv) (p : UserProfile) (k : ℕ) :
    Except String (List FbRec) :=
  fbGo env p (fbBase env p) 0 k

/-- The successful result of the dependency-free branch, defaulting to the
empty list when the branch raises. -/
def fbRecsD (env : PyEnv) (p : UserProfile) (k : ℕ) : List FbRec :=
  match get_recommendations_fb env p k with
  | Except.ok recs => recs
  | Except.error _ => []

/-- A reference CPython process environment: an arbitrary fixed hash salt
and a concrete admissible set iteration order. -/
def pyEnvRef : PyEnv :=
  { hash := fun _ => 0
    setList := fun xs => xs.dedup
    setList_perm := fun _ => List.Perm.refl _ }

/-- A second process environment with a different hash salt that happens to
agree with `pyEnvRef` on the two strings the default profile hashes. -/
def pyEnvAlt : PyEnv :=
  { hash := fun s => if s = "black" ∨ s = "streetwear" then 0 else 99
    setList := fun xs => xs.dedup
    setList_perm := fun _ => List.Perm.refl _ }

/-- The empty request profile: every key takes its default. -/
def emptyProfile : UserProfile := {}

/-- A profile whose color preference is not one of the ten catalog colors. -/
def profileTeal : UserProfile := { color_pref := some "teal" }

/-- Placeholder record used with `List.getD`. -/
def fbDummy : FbRec := ⟨"", "", 0, "", ""⟩

/-- Placeholder outfit used with `List.getD`. -/
def dummyOutfit : MLOutfit := ⟨"", "", "", [], 0, "", "", "", "", false⟩

/-- Placeholder final recommendation used with `List.getD`. -/
def dummyFinal : FinalRec := ⟨⟨0, "", "", "", "", "", 0, "", "", 0, 0, "", "", 0, false⟩, 0, ""⟩

/-- Sample in-stock product with id 1. -/
def prodA : ProductRow :=
  { id := 1, name := "A", brand := "B", category := "shirts", subcategory := "tee",
    color := "blue", price := 100, image_url := "u1", target_gender := "unisex",
    target_age_min := 18, target_age_max := 40, season := "summer", material := "cotton",
    popularity_score := 9, in_stock := true }

/-- Sample in-stock product with id 2. -/
def prodB : ProductRow :=
  { id := 2, name := "C", brand := "D", category := "jeans", subcategory := "denim",
    color := "black", price := 200, image_url := "u2", target_gender := "unisex",
    target_age_min := 18, target_age_max := 40, season := "winter", material := "denim",
    popularity_score := 5, in_stock := true }

/-- Sample product classified into the shoes slot. -/
def prodShoe : ProductRow :=
  { id := 3, name := "Shoe", brand := "S", category := "sneakers", subcategory := "shoes",
    color := "white", price := 50, image_url := "u3", target_gender := "unisex",
    target_age_min := 18, target_age_max := 40, season := "all", material := "canvas",
    popularity_score := 3, in_stock := true }

/-- Sample product of the same category classified into the accessory slot. -/
def prodAcc : ProductRow :=
  { id := 4, name := "Cap", brand := "S", category := "sneakers", subcategory := "misc",
    color := "white", price := 20, image_url := "u4", target_gender := "unisex",
    target_age_min := 18, target_age_max := 40, season := "all", material := "wool",
    popularity_score := 2, in_stock := true }

/-- An engine state before `train_collaborative_filtering` has run. -/
def engUntrained : Engine :=
  { svd_model := none, users := [], cols := [], rating := fun _ _ => 0, db := [prodA] }

/-- A trained engine state whose matrix index holds only user 7. -/
def engTrained : Engine :=
  { svd_model := some (fun _ _ => 0), users := [7], cols := [],
    rating := fun _ _ => 0, db := [prodA, prodB] }

/-- The empty preference dictionary. -/
def emptyPrefs : Prefs := {}

/-- Number of items of an outfit that occupy the slot named `t`. -/
def countType (items : List OutfitItem) (t : String) : ℕ :=
  (items.filter (fun it => it.type == t)).length

/-! Shared lemmas about the list helpers. -/

theorem insertDescBy_length {α : Type*} (key : α → ℚ) (x : α) (l : List α) :
    (insertDescBy key x l).length = l.length + 1 := by
  induction l with
  | nil => rfl
  | cons y ys ih => simp only [insertDescBy]; split <;> simp [ih]

theorem insertDescBy_perm {α : Type*} (key : α → ℚ) (x : α) (l : List α) :
    List.Perm (insertDescBy key x l) (x :: l) := by
  induction l with
  | nil => exact List.Perm.refl _
  | cons y ys ih =>
    simp only [insertDescBy]; split
    · exact List.Perm.refl _
    · exact (ih.cons y).trans (List.Perm.swap x y ys)

theorem foldl_insertDescBy_perm {α : Type*} (key : α → ℚ) :
    ∀ (l acc : List α),
      List.Perm (l.foldl (fun acc x => insertDescBy key x acc) acc) (acc ++ l) := by
  intro l
  induction l with
  | nil => intro acc; simp
  | cons x xs ih =>
    intro acc
    simp only [List.foldl_cons]
    refine (ih (insertDescBy key x acc)).trans ?_
    refine (List.Perm.append_right xs (insertDescBy_perm key x acc)).trans ?_
    exact List.perm_middle.symm

theorem sortDescBy_perm {α : Type*} (key : α → ℚ) (l : List α) :
    List.Perm (sortDescBy key l) l := by
  simpa using foldl_insertDescBy_perm key l []

theorem sortDescBy_length {α : Type*} (key : α → ℚ) (l : List α) :
    (sortDescBy key l).length = l.length :=
  (sortDescBy_perm key l).length_eq

theorem insertDescBy_pairwise {α : Type*} (key : α → ℚ) (x : α) (l : List α)
    (h : l.Pairwise (fun a b => key b ≤ key a)) :
    (insertDescBy key x l).Pairwise (fun a b => key b ≤ key a) := by
  induction l with
  | nil => simp [insertDescBy]
  | cons y ys ih =>
    rcases List.pairwise_cons.mp h with ⟨hy, hys⟩
    simp only [insertDescBy]; split
    · refine List.pairwise_cons.mpr ⟨?_, h⟩
      intro z hz
      rcases List.mem_cons.mp hz with rfl | hz
      · exact le_of_lt (by assumption)
      · exact le_trans (hy z hz) (le_of_lt (by assumption))
    · refine List.pairwise_cons.mpr ⟨?_, ih hys⟩
      intro z hz
      rcases List.mem_cons.mp ((insertDescBy_perm key x ys).mem_iff.mp hz) with rfl | hz
      · exact le_of_not_lt (by assumption)
      · exact hy z hz

theorem sortDescBy_pairwise {α : Type*} (key : α → ℚ) (l : List α) :
    (sortDescBy key l).Pairwise (fun a b => key b ≤ key a) := by
  have main : ∀ (l acc : List α), acc.Pairwise (fun a b => key b ≤ key a) →
      (l.foldl (fun acc x => insertDescBy key x acc) acc).Pairwise
        (fun a b => key b ≤ key a) := by
    intro l
    induction l with
    | nil => intro acc h; simpa using h
    | cons x xs ih => intro acc h; exact ih _ (insertDescBy_pairwise key x acc h)
  exact main l [] (by simp)

theorem flatten_replicate_length {α : Type*} (m : ℕ) (l : List α) :
    ((List.replicate m l).flatten).length = m * l.length := by
  induction m with
  | zero => simp
  | succ m ih => simp [List.replicate_succ, ih, Nat.succ_mul]; omega

theorem getD_mem_of_lt {α : Type*} (l : List α) (n : ℕ) (d : α) (h : n < l.length) :
    l.getD n d ∈ l := by
  induction l generalizing n with
  | nil => simp at h
  | cons a as ih =>
    cases n with
    | zero => simp [List.getD]
    | succ n =>
      exact List.mem_cons_of_mem _ (ih n (by simpa using h))

/-- C1 (amended): the top-level entry point never surfaces an error — any
exception from the personalization path is caught and replaced by the
Fallback Generator's output, which is non-empty whenever k ≥ 1; a
successful personalization run, however, is returned as-is truncated to k,
so a successfully produced empty list yields an empty reply. -/
theorem fashion_recommendations_error_handling
    (pipeline : Except String (List MLOutfit)) (k : ℕ) (hk : 1 ≤ k) :
    (∀ e, pipeline = Except.error e →
      get_fashion_recommendations pipeline k = get_fallback_recommendations k ∧
      get_fashion_recommendations pipeline k ≠ []) ∧
    (∀ recs, pipeline = Except.ok recs →
      get_fashion_recommendations pipeline k = recs.take k) := by
  constructor
  · rintro e rfl
    refine ⟨rfl, ?_⟩
    simp only [get_fashion_recommendations, get_fallback_recommendations]
    rw [show min k fallback_outfits.length = 1 by simp [fallback_outfits]; omega]
    simp [fallback_outfits]
  · rintro recs rfl; rfl

/-- C1 counterexample: when the personalization path succeeds but produces
no outfits — as `create_complete_outfits` does on an empty recommendation
list — the top-level reply is empty even for k = 1, so the result is not
always a non-empty list. -/
theorem fashion_recommendations_can_be_empty :
    get_fashion_recommendations (Except.ok (create_complete_outfits [] emptyPrefs)) 1 = [] := rfl

/-- C1 witness. -/
theorem fashion_recommendations_error_handling_witness :
    get_fashion_recommendations (Except.error "db unavailable") 1 =
      get_fallback_recommendations 1 ∧
    get_fashion_recommendations (Except.error "db unavailable") 1 ≠ [] :=
  (fashion_recommendations_error_handling (Except.error "db unavailable") 1 (by decide)).1
    "db unavailable" rfl

/-- C2 (amended): neither fallback path throws, but neither returns exactly
k entries for every k: `get_fallback_recommendations` evaluates the Python
expression `fallback_outfits * min(k, len(fallback_outfits))`, which with
the shipped pool of one outfit is min(k,1) entries, and `recommend_products`
returns min(k, 8) entries from its pool of eight without repetition. -/
theorem fallback_generator_lengths (p : UserProfile) (k : ℕ) :
    (get_fallback_recommendations k).length = min k 1 ∧
    (recommend_products p k).length = min k 8 ∧
    (1 ≤ k → get_fallback_recommendations k ≠ []) := by
  have h1 : (get_fallback_recommendations k).length = min k 1 := by
    simp [get_fallback_recommendations, flatten_replicate_length, fallback_outfits]
  refine ⟨h1, ?_, ?_⟩
  · simp only [recommend_products]
    rw [if_neg (by decide)]
    rw [List.length_map, List.length_take, sortDescBy_length, List.length_map]
    norm_num [load_products]
  · intro hk h
    have hl := congrArg List.length h
    rw [h1] at hl
    simp at hl
    omega

/-- C2 counterexample: for k = 2 the static fallback returns a single
entry, not two — the pool is not repeated up to k entries. -/
theorem fallback_generator_not_k_entries :
    (get_fallback_recommendations 2).length ≠ 2 := by decide

/-- C2 witness. -/
theorem fallback_generator_lengths_witness :
    (get_fallback_recommendations 2).length = min 2 1 ∧
    (recommend_products emptyProfile 2).length = min 2 8 ∧
    get_fallback_recommendations 2 ≠ [] :=
  ⟨(fallback_generator_lengths emptyProfile 2).1,
   (fallback_generator_lengths emptyProfile 2).2.1,
   (fallback_generator_lengths emptyProfile 2).2.2 (by decide)⟩

set_option maxHeartbeats 2000000 in
/-- C3: the Preference Matcher score equals the sum of the six additive
rules exactly as the specification words them — each preference-keyed rule
applied only when its key is present, plus 0.1 times the popularity score
always applied; the function is total (pure, never raises). -/
theorem preference_score_is_rule_sum (product : ProductRow) (preferences : Prefs) :
    calculate_preference_score product preferences =
      genderRule product preferences + colorRule product preferences +
      styleRule product preferences + budgetRule product preferences +
      ageRule product preferences + popularityRule product := by
  obtain ⟨g, c, st, b, a⟩ := preferences
  cases g <;> cases c <;> cases st <;> cases b <;> cases a <;>
    simp only [calculate_preference_score, genderRule, colorRule, styleRule, budgetRule,
      ageRule, popularityRule] <;>
    (try split_ifs) <;> ring

/-- C4 (amended): provided the collaborative model has been trained, a call
for a user id absent from the user-item matrix never raises and returns
exactly the popularity-ordered fallback list: a selection of in-stock
products of maximal popularity_score (a prefix of a popularity-descending
ordering of all in-stock products), ordered descending, of length
min n (number of in-stock products). -/
theorem cold_start_popularity_fallback (eng : Engine) (user_id : ℤ) (n : ℕ)
    (f : ℤ → ℤ → ℚ) (htrained : eng.svd_model = some f) (habsent : user_id ∉ eng.users) :
    get_collaborative_recommendations eng user_id n =
      Except.ok (get_popular_items eng.db n) ∧
    (get_popular_items eng.db n).length =
      min n ((eng.db.filter (fun p => p.in_stock)).length) ∧
    ∃ rest, List.Perm (get_popular_items eng.db n ++ rest)
        ((eng.db.filter (fun p => p.in_stock)).map (fun p => (p.id, p.popularity_score))) ∧
      List.Pairwise (fun a b => b.2 ≤ a.2) (get_popular_items eng.db n ++ rest) := by
  have hsplit : get_popular_items eng.db n ++
      ((sortDescBy (fun p => p.popularity_score) (eng.db.filter (fun p => p.in_stock))).drop
        n).map (fun p => (p.id, p.popularity_score)) =
      ((sortDescBy (fun p => p.popularity_score) (eng.db.filter (fun p => p.in_stock)))).map
        (fun p => (p.id, p.popularity_score)) := by
    rw [get_popular_items, ← List.map_append, List.take_append_drop]
  refine ⟨?_, ?_, ?_⟩
  · simp [get_collaborative_recommendations, htrained, habsent]
  · simp [get_popular_items, List.length_take, sortDescBy_length]
  · refine ⟨((sortDescBy (fun p => p.popularity_score)
        (eng.db.filter (fun p => p.in_stock))).drop n).map
        (fun p => (p.id, p.popularity_score)), ?_, ?_⟩
    · rw [hsplit]
      exact (sortDescBy_perm _ _).map _
    · rw [hsplit]
      exact List.Pairwise.map _ (fun a b h => h) (sortDescBy_pairwise _ _)

/-- C4 counterexample: before the factorization step has run the
absent-user call raises ValueError instead of returning the popularity
list, so the claim fails without the trained-model hypothesis. -/
theorem cold_start_untrained_raises :
    get_collaborative_recommendations engUntrained 99 1 ≠
      Except.ok (get_popular_items engUntrained.db 1) := by
  simp [get_collaborative_recommendations, engUntrained]

/-- C4 witness. -/
theorem cold_start_popularity_fallback_witness :
    get_collaborative_recommendations engTrained 3 2 =
      Except.ok (get_popular_items engTrained.db 2) :=
  (cold_start_popularity_fallback engTrained 3 2 (fun _ _ => 0) rfl (by decide)).1

theorem dedupFirstHR_spec :
    ∀ (l : List HRec) (seen : List ℤ), ∀ r ∈ dedupFirstHR seen l,
      r.product_id ∉ seen ∧ l.find? (fun x => x.product_id == r.product_id) = some r := by
  intro l
  induction l with
  | nil => intro seen r hr; simp [dedupFirstHR] at hr
  | cons a rs ih =>
    intro seen r hr
    simp only [dedupFirstHR] at hr
    by_cases ha : a.product_id ∈ seen
    · rw [if_pos ha] at hr
      obtain ⟨hns, hfind⟩ := ih seen r hr
      have hne : a.product_id ≠ r.product_id := fun h => hns (h ▸ ha)
      refine ⟨hns, ?_⟩
      rw [List.find?_cons_of_neg _ (by simp [hne])]
      exact hfind
    · rw [if_neg ha] at hr
      rcases List.mem_cons.mp hr with rfl | hr2
      · exact ⟨ha, List.find?_cons_of_pos _ (by simp)⟩
      · obtain ⟨hns, hfind⟩ := ih (a.product_id :: seen) r hr2
        have hne : a.product_id ≠ r.product_id :=
          fun h => hns (List.mem_cons.mpr (Or.inl h.symm))
        refine ⟨fun hmem => hns (List.mem_cons_of_mem _ hmem), ?_⟩
        rw [List.find?_cons_of_neg _ (by simp [hne])]
        exact hfind

theorem dedupFirstHR_pairwise :
    ∀ (l : List HRec) (seen : List ℤ),
      (dedupFirstHR seen l).Pairwise (fun a b => a.product_id ≠ b.product_id) := by
  intro l
  induction l with
  | nil => intro seen; simp [dedupFirstHR]
  | cons a rs ih =>
    intro seen
    simp only [dedupFirstHR]
    split
    · exact ih seen
    · refine List.pairwise_cons.mpr ⟨?_, ih _⟩
      intro r hr
      have hns := (dedupFirstHR_spec rs (a.product_id :: seen) r hr).1
      exact fun h => hns (List.mem_cons.mpr (Or.inl h.symm))

theorem get_product_details_id (db : List ProductRow) (pid : ℤ) (pd : ProductRow)
    (h : get_product_details db pid = some pd) : pd.id = pid := by
  have hp := List.find?_some h
  simp only [Bool.and_eq_true, beq_iff_eq] at hp
  exact hp.1

theorem hybrid_filterMap_pairwise (db : List ProductRow) (l : List HRec)
    (h : l.Pairwise (fun a b => a.product_id ≠ b.product_id)) :
    (l.filterMap (fun r => (get_product_details db r.product_id).map
        (fun pd => FinalRec.mk pd r.score r.source))).Pairwise
      (fun a b => a.product.id ≠ b.product.id) := by
  induction l with
  | nil => simp
  | cons a rs ih =>
    rcases List.pairwise_cons.mp h with ⟨ha, hrs⟩
    rw [List.filterMap_cons]
    cases hd : (get_product_details db a.product_id).map
        (fun pd => FinalRec.mk pd a.score a.source) with
    | none => exact ih hrs
    | some b =>
      refine List.pairwise_cons.mpr ⟨?_, ih hrs⟩
      intro c hc
      rcases List.mem_filterMap.mp hc with ⟨r, hr, hrc⟩
      rcases Option.map_eq_some'.mp hd with ⟨pd, hpd, rfl⟩
      rcases Option.map_eq_some'.mp hrc with ⟨pd2, hpd2, rfl⟩
      have h1 := get_product_details_id db a.product_id pd hpd
      have h2 := get_product_details_id db r.product_id pd2 hpd2
      simpa [h1, h2] using ha r hr

theorem hybridCandidates_cf_first (cfl : List (ℤ × ℚ))
    (contentRes : Except String (List (ℤ × ℚ))) (pid : ℤ)
    (hmem : pid ∈ cfl.map Prod.fst) :
    ∃ x : HRec, (hybridCandidates (Except.ok cfl) contentRes).find?
        (fun y => y.product_id == pid) = some x ∧
      x.source = "collaborative" := by
  have hsome : ((cfl.map (fun pr => HRec.mk pr.1 (pr.2 * (6/10)) "collaborative")).find?
      (fun y => y.product_id == pid)).isSome := by
    rw [List.find?_isSome]
    rcases List.mem_map.mp hmem with ⟨pr, hpr, rfl⟩
    exact ⟨HRec.mk pr.1 (pr.2 * (6/10)) "collaborative",
      List.mem_map.mpr ⟨pr, hpr, rfl⟩, by simp⟩
  rcases Option.isSome_iff_exists.mp hsome with ⟨x, hx⟩
  refine ⟨x, ?_, ?_⟩
  · simp [hybridCandidates, List.find?_append, hx]
  · rcases List.mem_map.mp (List.mem_of_find?_eq_some hx) with ⟨pr, hpr, rfl⟩
    rfl

/-- C5: the Hybrid Blender returns at most n entries with pairwise distinct
product ids, and whenever the collaborative source (processed first)
contains a product id, the retained entry for that id is the collaborative
one — deduplication keeps the first occurrence. -/
theorem hybrid_blend_invariants (cfRes contentRes : Except String (List (ℤ × ℚ)))
    (db : List ProductRow) (n : ℕ) :
    (get_hybrid_recommendations cfRes contentRes db n).length ≤ n ∧
    (get_hybrid_recommendations cfRes contentRes db n).Pairwise
      (fun a b => a.product.id ≠ b.product.id) ∧
    (∀ cfl, cfRes = Except.ok cfl →
      ∀ e ∈ get_hybrid_recommendations cfRes contentRes db n,
        e.product.id ∈ cfl.map Prod.fst →
          e.recommendation_source = "collaborative") := by
  have hdef : get_hybrid_recommendations cfRes contentRes db n =
      ((sortDescBy (fun r => r.score)
        (dedupFirstHR [] (hybridCandidates cfRes contentRes))).take n).filterMap
        (fun r => (get_product_details db r.product_id).map
          (fun pd => FinalRec.mk pd r.score r.source)) := rfl
  have hpw : ((sortDescBy (fun r => r.score)
      (dedupFirstHR [] (hybridCandidates cfRes contentRes))).take n).Pairwise
      (fun a b => a.product_id ≠ b.product_id) := by
    refine List.Pairwise.sublist (List.take_sublist n _) ?_
    exact ((sortDescBy_perm _ _).pairwise_iff (fun h => Ne.symm h)).mpr
      (dedupFirstHR_pairwise _ [])
  refine ⟨?_, ?_, ?_⟩
  · rw [hdef]
    refine le_trans (List.length_filterMap_le _ _) ?_
    rw [List.length_take]
    exact Nat.min_le_left _ _
  · rw [hdef]
    exact hybrid_filterMap_pairwise db _ hpw
  · rintro cfl rfl e he hpid
    rw [hdef] at he
    rcases List.mem_filterMap.mp he with ⟨r, hr, hre⟩
    rcases Option.map_eq_some'.mp hre with ⟨pd, hpd, rfl⟩
    have hid : pd.id = r.product_id := get_product_details_id db r.product_id pd hpd
    simp only at hpid
    rw [hid] at hpid
    have hru : r ∈ dedupFirstHR [] (hybridCandidates (Except.ok cfl) contentRes) :=
      (sortDescBy_perm _ _).mem_iff.mp (List.mem_of_mem_take hr)
    have hfind := (dedupFirstHR_spec _ [] r hru).2
    rcases hybridCandidates_cf_first cfl contentRes r.product_id hpid with ⟨x, hx, hxsrc⟩
    have hrx : r = x := by
      have := hfind.symm.trans hx
      exact Option.some_injective _ this
    simpa using hrx ▸ hxsrc

/-- C5 witness. -/
theorem hybrid_blend_invariants_witness :
    (get_hybrid_recommendations (Except.ok [((1:ℤ), (10:ℚ))])
      (Except.ok [(1, 8), (2, 5)]) [prodA, prodB] 5).length ≤ 5 ∧
    ((get_hybrid_recommendations (Except.ok [((1:ℤ), (10:ℚ))])
      (Except.ok [(1, 8), (2, 5)]) [prodA, prodB] 5).getD 0
        dummyFinal).recommendation_source = "collaborative" :=
  have hout : get_hybrid_recommendations (Except.ok [((1:ℤ), (10:ℚ))])
      (Except.ok [(1, 8), (2, 5)]) [prodA, prodB] 5 =
      [FinalRec.mk prodA 6 "collaborative", FinalRec.mk prodB 2 "content"] := by
    norm_num [get_hybrid_recommendations, hybridCandidates, dedupFirstHR, sortDescBy,
      insertDescBy, get_product_details, prodA, prodB, List.filterMap_cons, List.find?]
    decide
  ⟨(hybrid_blend_invariants (Except.ok [((1:ℤ), (10:ℚ))])
      (Except.ok [(1, 8), (2, 5)]) [prodA, prodB] 5).1,
   (hybrid_blend_invariants (Except.ok [((1:ℤ), (10:ℚ))])
      (Except.ok [(1, 8), (2, 5)]) [prodA, prodB] 5).2.2 [(1, 10)] rfl _
      (by rw [hout]; exact List.mem_cons_self _ _) (by rw [hout]; simp [prodA])⟩

theorem slotTaken_slotSet_self (st : SlotState) (t : String) (p : ProductRow) :
    slotTaken (slotSet st t p) t = true := by
  unfold slotTaken slotSet
  split_ifs <;> simp

theorem slotTaken_slotSet_mono (st : SlotState) (t u : String) (p : ProductRow)
    (h : slotTaken st u = true) : slotTaken (slotSet st t p) u = true := by
  unfold slotTaken slotSet at *
  split_ifs at * <;> simp_all

theorem assembleGo_spec (ps : List ProductRow) : ∀ st : SlotState,
    (∀ t, slotTaken st t = true → countType (assembleGo ps st).1 t = 0) ∧
    (∀ t, countType (assembleGo ps st).1 t ≤ 1) ∧
    (∀ it ∈ (assembleGo ps st).1, slotTaken st it.type = false ∧
      ∃ p, ps.find? (fun q => itemType q == it.type) = some p ∧
        it = mkOutfitItem (itemType p) p) := by
  induction ps with
  | nil => intro st; refine ⟨?_, ?_, ?_⟩ <;> simp [assembleGo, countType]
  | cons p ps ih =>
    intro st
    by_cases h : slotTaken st (itemType p)
    · have hstep : assembleGo (p :: ps) st = assembleGo ps st := by
        simp [assembleGo, h]
      rw [hstep]
      obtain ⟨ih1, ih2, ih3⟩ := ih st
      refine ⟨ih1, ih2, ?_⟩
      intro it hit
      obtain ⟨hfree, q, hq, hq2⟩ := ih3 it hit
      have hne : itemType p ≠ it.type := by
        intro he
        rw [he, hfree] at h
        exact Bool.noConfusion h
      refine ⟨hfree, q, ?_, hq2⟩
      rw [List.find?_cons_of_neg _ (by simp [hne]), hq]
    · have hstep : assembleGo (p :: ps) st =
          (mkOutfitItem (itemType p) p :: (assembleGo ps (slotSet st (itemType p) p)).1,
            p.price + (assembleGo ps (slotSet st (itemType p) p)).2) := by
        simp [assembleGo, h]
      obtain ⟨ih1, ih2, ih3⟩ := ih (slotSet st (itemType p) p)
      rw [hstep]
      have hcount_head : ∀ t, countType
          (mkOutfitItem (itemType p) p :: (assembleGo ps (slotSet st (itemType p) p)).1) t =
          (if itemType p = t then 1 else 0) +
            countType (assembleGo ps (slotSet st (itemType p) p)).1 t := by
        intro t
        simp only [countType, mkOutfitItem, List.filter_cons]
        by_cases he : itemType p = t <;> (simp [he]; try omega)
      refine ⟨?_, ?_, ?_⟩
      · intro t ht
        have hne : itemType p ≠ t := fun he => h (by rw [he]; exact ht)
        rw [hcount_head, if_neg hne]
        have := ih1 t (slotTaken_slotSet_mono st (itemType p) t p ht)
        omega
      · intro t
        rw [hcount_head]
        by_cases he : itemType p = t
        · rw [if_pos he]
          have hself : slotTaken (slotSet st (itemType p) p) t = true := by
            rw [← he]; exact slotTaken_slotSet_self st (itemType p) p
          have := ih1 t hself
          omega
        · rw [if_neg he]
          have := ih2 t
          omega
      · intro it hit
        rcases List.mem_cons.mp hit with rfl | hit2
        · refine ⟨by simpa [mkOutfitItem] using h, p, ?_, rfl⟩
          exact List.find?_cons_of_pos _ (by simp [mkOutfitItem])
        · obtain ⟨hfree, q, hq, hq2⟩ := ih3 it hit2
          have hne : itemType p ≠ it.type := by
            intro he
            rw [he] at hfree
            rw [slotTaken_slotSet_self st it.type p] at hfree
            exact Bool.noConfusion hfree
          have hfree0 : slotTaken st it.type = false := by
            by_cases hb : slotTaken st it.type
            · rw [slotTaken_slotSet_mono st (itemType p) it.type p hb] at hfree
              exact Bool.noConfusion hfree
            · simpa using hb
          refine ⟨hfree0, q, ?_, hq2⟩
          rw [List.find?_cons_of_neg _ (by simp [hne]), hq]

theorem create_outfit_some (products : List ProductRow) (up : Prefs) (o : MLOutfit)
    (h : create_outfit_from_products products up = some o) :
    o.items = (assembleGo products emptySlots).1 ∧
      2 ≤ (assembleGo products emptySlots).1.length := by
  simp only [create_outfit_from_products] at h
  split at h
  · obtain rfl := Option.some.inj h
    constructor
    · rfl
    · assumption
  · exact absurd h (by simp)

/-- C6: the Outfit Assembler emits at most 5 outfits; every emitted outfit
has at least 2 items and at most one item per slot; and within a group the
first item encountered for a slot is the item that fills it. -/
theorem outfit_assembler_invariants :
    (∀ (recommendations : List ProductRow) (up : Prefs),
      (create_complete_outfits recommendations up).length ≤ 5 ∧
      ∀ o ∈ create_complete_outfits recommendations up,
        2 ≤ o.items.length ∧ ∀ t, countType o.items t ≤ 1) ∧
    (∀ (products : List ProductRow) (up : Prefs) (o : MLOutfit),
      create_outfit_from_products products up = some o →
      ∀ it ∈ o.items, ∃ p, products.find? (fun q => itemType q == it.type) = some p ∧
        it = mkOutfitItem (itemType p) p) := by
  constructor
  · intro recs up
    constructor
    · simp only [create_complete_outfits]
      exact List.length_take_le 5 _
    · intro o ho
      simp only [create_complete_outfits] at ho
      have ho2 := List.mem_of_mem_take ho
      rcases List.mem_filterMap.mp ho2 with ⟨key, hkey, hco⟩
      obtain ⟨hitems, hlen⟩ := create_outfit_some _ _ _ hco
      constructor
      · rw [hitems]; exact hlen
      · intro t; rw [hitems]; exact (assembleGo_spec _ emptySlots).2.1 t
  · intro products up o h it hit
    obtain ⟨hitems, hlen⟩ := create_outfit_some _ _ _ h
    rw [hitems] at hit
    obtain ⟨-, p, hfind, heq⟩ := (assembleGo_spec products emptySlots).2.2 it hit
    exact ⟨p, hfind, heq⟩

/-- C6 witness. -/
theorem outfit_assembler_invariants_witness :
    (create_complete_outfits [prodShoe, prodAcc] emptyPrefs).length ≤ 5 ∧
    2 ≤ ((create_complete_outfits [prodShoe, prodAcc] emptyPrefs).getD 0
      dummyOutfit).items.length :=
  ⟨(outfit_assembler_invariants.1 [prodShoe, prodAcc] emptyPrefs).1,
   ((outfit_assembler_invariants.1 [prodShoe, prodAcc] emptyPrefs).2 _
     (getD_mem_of_lt _ 0 dummyOutfit
       (by rw [show (create_complete_outfits [prodShoe, prodAcc] emptyPrefs).length = 1
                 from by decide]; omega))).1⟩

theorem roundHalfEven_sub_int (x : ℚ) (n : ℤ) (hn : n % 2 = 0) :
    roundHalfEven (x - (n : ℚ)) = roundHalfEven x - n := by
  simp only [roundHalfEven]
  rw [Int.floor_sub_int x n]
  have he : x - (n : ℚ) - ((⌊x⌋ - n : ℤ) : ℚ) = x - (⌊x⌋ : ℚ) := by push_cast; ring
  rw [he]
  have hm : (⌊x⌋ - n) % 2 = ⌊x⌋ % 2 := by omega
  rw [hm]
  split_ifs <;> omega

theorem pyRoundTo4_shift (x : ℚ) (i : ℕ) :
    pyRoundTo 4 (x - (i : ℚ) * (2/100)) = pyRoundTo 4 x - (i : ℚ) * (2/100) := by
  simp only [pyRoundTo]
  have h : (x - (i : ℚ) * (2/100)) * (10:ℚ)^4 = x * (10:ℚ)^4 - ((200 * (i:ℤ) : ℤ) : ℚ) := by
    push_cast; ring
  rw [h, roundHalfEven_sub_int _ _ (by omega)]
  push_cast; ring

theorem fbGo_ok_spec (env : PyEnv) (p : UserProfile) (base : ℚ) :
    ∀ (cnt i : ℕ) (recs : List FbRec), fbGo env p base i cnt = Except.ok recs →
      recs.length = cnt ∧ ∀ t, t < cnt →
        ∃ sc, fbStyleColor env p (i + t) = Except.ok sc ∧
          recs.getD t fbDummy = mkFbRec base (i + t) sc := by
  intro cnt
  induction cnt with
  | zero =>
    intro i recs h
    simp only [fbGo] at h
    obtain rfl := Except.ok.inj h
    exact ⟨rfl, fun t ht => absurd ht (by omega)⟩
  | succ cnt ih =>
    intro i recs h
    simp only [fbGo] at h
    cases hsc : fbStyleColor env p i with
    | error e => rw [hsc] at h; exact absurd h (by simp)
    | ok sc =>
      rw [hsc] at h
      cases hrest : fbGo env p base (i + 1) cnt with
      | error e => rw [hrest] at h; exact absurd h (by simp)
      | ok rest =>
        rw [hrest] at h
        obtain rfl := Except.ok.inj h
        obtain ⟨hlen, hall⟩ := ih (i + 1) rest hrest
        refine ⟨by simp [hlen], ?_⟩
        intro t ht
        cases t with
        | zero => exact ⟨sc, by simpa using hsc, by simp⟩
        | succ t =>
          obtain ⟨sc2, hsc2, hget⟩ := hall t (by omega)
          refine ⟨sc2, ?_, ?_⟩
          · rw [show i + (t + 1) = (i + 1) + t by omega]; exact hsc2
          · simpa [show i + (t + 1) = (i + 1) + t by omega] using hget

theorem fbGo_total (env : PyEnv) (p : UserProfile) (base : ℚ) :
    ∀ (cnt i : ℕ), (∀ j, i ≤ j → j < i + cnt → ∃ sc, fbStyleColor env p j = Except.ok sc) →
      ∃ recs, fbGo env p base i cnt = Except.ok recs := by
  intro cnt
  induction cnt with
  | zero => intro i _; exact ⟨[], rfl⟩
  | succ cnt ih =>
    intro i hall
    obtain ⟨sc, hsc⟩ := hall i (le_refl i) (by omega)
    obtain ⟨rest, hrest⟩ := ih (i + 1) (fun j hj1 hj2 => hall j (by omega) (by omega))
    exact ⟨mkFbRec base i sc :: rest, by simp [fbGo, hsc, hrest]⟩

theorem nextColorIdx (uc : String) (hc : uc ∈ fbColors) :
    ∃ idx, fbColors.findIdx? (fun c => c == uc) = some idx ∧
      fbColors.getD ((idx + 1) % fbColors.length) "" ≠ uc := by
  fin_cases hc <;> exact ⟨_, rfl, by decide⟩

theorem nextStyleIdx (us : String) (hs : us ∈ fbStyles) :
    ∃ idx, fbStyles.findIdx? (fun st => st == us) = some idx ∧
      fbStyles.getD ((idx + 1) % fbStyles.length) "" ≠ us := by
  fin_cases hs <;> exact ⟨_, rfl, by decide⟩

theorem fbStyleColor_zero (env : PyEnv) (p : UserProfile) :
    fbStyleColor env p 0 =
      Except.ok (p.style_pref.getD "casual", p.color_pref.getD "black") := rfl

theorem fbStyleColor_one (env : PyEnv) (p : UserProfile)
    (hc : p.color_pref.getD "black" ∈ fbColors) :
    ∃ c, fbStyleColor env p 1 = Except.ok (p.style_pref.getD "casual", c) ∧
      c ≠ p.color_pref.getD "black" := by
  obtain ⟨idx, hidx, hne⟩ := nextColorIdx _ hc
  exact ⟨fbColors.getD ((idx + 1) % fbColors.length) "", by simp [fbStyleColor, hidx], hne⟩

theorem fbStyleColor_two (env : PyEnv) (p : UserProfile)
    (hs : p.style_pref.getD "casual" ∈ fbStyles) :
    ∃ st, fbStyleColor env p 2 = Except.ok (st, p.color_pref.getD "black") ∧
      st ≠ p.style_pref.getD "casual" := by
  obtain ⟨idx, hidx, hne⟩ := nextStyleIdx _ hs
  exact ⟨fbStyles.getD ((idx + 1) % fbStyles.length) "", by simp [fbStyleColor, hidx], hne⟩

theorem fbStyleColor_ge3 (env : PyEnv) (p : UserProfile) (i : ℕ) (h3 : 3 ≤ i) :
    ∃ st, fbStyleColor env p i =
        Except.ok (st, fbColors.getD ((i * 2) % fbColors.length) "") ∧
      st ∈ ageStylesOf (p.age.getD 25) ++ budgetStylesOf (p.budget.getD 1000) := by
  have h0 : ¬ i = 0 := by omega
  have h1 : ¬ i = 1 := by omega
  have h2 : ¬ i = 2 := by omega
  have hxs : ageStylesOf (p.age.getD 25) ++ budgetStylesOf (p.budget.getD 1000) ≠ [] := by
    have ha : ageStylesOf (p.age.getD 25) ≠ [] := by
      unfold ageStylesOf; split_ifs <;> simp
    intro hcon
    exact ha (List.append_eq_nil.mp hcon).1
  have hperm := env.setList_perm (ageStylesOf (p.age.getD 25) ++
    budgetStylesOf (p.budget.getD 1000))
  have hpne : env.setList (ageStylesOf (p.age.getD 25) ++
      budgetStylesOf (p.budget.getD 1000)) ≠ [] := by
    intro hcon
    rw [hcon] at hperm
    exact hxs ((List.dedup_eq_nil _).mp hperm.symm.eq_nil)
  have hlen : 0 < (env.setList (ageStylesOf (p.age.getD 25) ++
      budgetStylesOf (p.budget.getD 1000))).length := List.length_pos.mpr hpne
  have hlt : i % (env.setList (ageStylesOf (p.age.getD 25) ++
      budgetStylesOf (p.budget.getD 1000))).length <
      (env.setList (ageStylesOf (p.age.getD 25) ++
        budgetStylesOf (p.budget.getD 1000))).length := Nat.mod_lt _ hlen
  refine ⟨(env.setList (ageStylesOf (p.age.getD 25) ++
    budgetStylesOf (p.budget.getD 1000))).getD (i % (env.setList (ageStylesOf (p.age.getD 25) ++
      budgetStylesOf (p.budget.getD 1000))).length) "", ?_, ?_⟩
  · have hemp : (env.setList (ageStylesOf (p.age.getD 25) ++
        budgetStylesOf (p.budget.getD 1000))).isEmpty = false := by
      cases hp : env.setList (ageStylesOf (p.age.getD 25) ++
        budgetStylesOf (p.budget.getD 1000)) with
      | nil => exact absurd hp hpne
      | cons a as => rfl
    simp [fbStyleColor, h0, h1, h2, hemp]
  · have hmem := getD_mem_of_lt _ _ "" hlt
    have := hperm.mem_iff.mp hmem
    exact List.mem_dedup.mp this

theorem fb_all_ok (env : PyEnv) (p : UserProfile) (k : ℕ)
    (hc : p.color_pref.getD "black" ∈ fbColors)
    (hs : p.style_pref.getD "casual" ∈ fbStyles) :
    ∀ j, 0 ≤ j → j < 0 + k → ∃ sc, fbStyleColor env p j = Except.ok sc := by
  intro j _ _
  by_cases h3 : 3 ≤ j
  · obtain ⟨st, h, _⟩ := fbStyleColor_ge3 env p j h3; exact ⟨_, h⟩
  · interval_cases j
    · exact ⟨_, fbStyleColor_zero env p⟩
    · obtain ⟨c, h, _⟩ := fbStyleColor_one env p hc; exact ⟨_, h⟩
    · obtain ⟨st, h, _⟩ := fbStyleColor_two env p hs; exact ⟨_, h⟩

theorem fb_total_ok (env : PyEnv) (p : UserProfile) (k : ℕ)
    (hc : p.color_pref.getD "black" ∈ fbColors)
    (hs : p.style_pref.getD "casual" ∈ fbStyles) :
    get_recommendations_fb env p k = Except.ok (fbRecsD env p k) := by
  obtain ⟨recs, hrecs⟩ := fbGo_total env p (fbBase env p) k 0 (fb_all_ok env p k hc hs)
  have hok : get_recommendations_fb env p k = Except.ok recs := hrecs
  rw [hok, fbRecsD, hok]

/-- C7 (amended): provided the profile's resolved color preference is one
of the ten catalog colors and its resolved style preference one of the
eight catalog styles, the dependency-free path (b) never fails and returns
exactly k entries whose 1st mirrors the exact style and color, whose 2nd
keeps the style and varies the color, whose 3rd varies the style and keeps
the color, and whose remaining entries draw styles from the age- and
budget-conditioned pools with colors cycled by index doubling.  Outside
those two tables, `list.index` raises ValueError, so the unrestricted claim
fails (see the counterexample). -/
theorem fb_path_structure (env : PyEnv) (p : UserProfile) (k : ℕ)
    (hc : p.color_pref.getD "black" ∈ fbColors)
    (hs : p.style_pref.getD "casual" ∈ fbStyles) :
    get_recommendations_fb env p k = Except.ok (fbRecsD env p k) ∧
    (fbRecsD env p k).length = k ∧
    (1 ≤ k → ((fbRecsD env p k).getD 0 fbDummy).style = p.style_pref.getD "casual" ∧
      ((fbRecsD env p k).getD 0 fbDummy).color = p.color_pref.getD "black") ∧
    (2 ≤ k → ((fbRecsD env p k).getD 1 fbDummy).style = p.style_pref.getD "casual" ∧
      ((fbRecsD env p k).getD 1 fbDummy).color ≠ p.color_pref.getD "black") ∧
    (3 ≤ k → ((fbRecsD env p k).getD 2 fbDummy).style ≠ p.style_pref.getD "casual" ∧
      ((fbRecsD env p k).getD 2 fbDummy).color = p.color_pref.getD "black") ∧
    (∀ i, 3 ≤ i → i < k →
      ((fbRecsD env p k).getD i fbDummy).style ∈
        ageStylesOf (p.age.getD 25) ++ budgetStylesOf (p.budget.getD 1000) ∧
      ((fbRecsD env p k).getD i fbDummy).color =
        fbColors.getD ((i * 2) % fbColors.length) "") := by
  have hok := fb_total_ok env p k hc hs
  obtain ⟨hlen, hspec⟩ := fbGo_ok_spec env p (fbBase env p) k 0 (fbRecsD env p k) hok
  refine ⟨hok, hlen, ?_, ?_, ?_, ?_⟩
  · intro h1
    obtain ⟨sc, hsc, hget⟩ := hspec 0 (by omega)
    simp only [Nat.zero_add] at hsc hget
    rw [fbStyleColor_zero] at hsc
    obtain rfl := Except.ok.inj hsc
    rw [hget]
    exact ⟨rfl, rfl⟩
  · intro h2
    obtain ⟨sc, hsc, hget⟩ := hspec 1 (by omega)
    simp only [Nat.zero_add] at hsc hget
    obtain ⟨c, hone, hcne⟩ := fbStyleColor_one env p hc
    rw [hone] at hsc
    obtain rfl := Except.ok.inj hsc
    rw [hget]
    exact ⟨rfl, hcne⟩
  · intro h3
    obtain ⟨sc, hsc, hget⟩ := hspec 2 (by omega)
    simp only [Nat.zero_add] at hsc hget
    obtain ⟨st, htwo, hsne⟩ := fbStyleColor_two env p hs
    rw [htwo] at hsc
    obtain rfl := Except.ok.inj hsc
    rw [hget]
    exact ⟨hsne, rfl⟩
  · intro i h3 hik
    obtain ⟨sc, hsc, hget⟩ := hspec i hik
    simp only [Nat.zero_add] at hsc hget
    obtain ⟨st, hgi, hmem⟩ := fbStyleColor_ge3 env p i h3
    rw [hgi] at hsc
    obtain rfl := Except.ok.inj hsc
    rw [hget]
    exact ⟨hmem, rfl⟩

/-- C7 counterexample: a profile whose color preference is not in the
ten-color table makes the path raise ValueError already at the second
entry, so the path does not succeed for every profile. -/
theorem fb_path_unknown_color_raises :
    get_recommendations_fb pyEnvRef profileTeal 2 =
      Except.error "ValueError: color_pref is not in list" := rfl

/-- C7 witness. -/
theorem fb_path_structure_witness :
    get_recommendations_fb pyEnvRef emptyProfile 2 =
      Except.ok (fbRecsD pyEnvRef emptyProfile 2) ∧
    (fbRecsD pyEnvRef emptyProfile 2).length = 2 ∧
    ((fbRecsD pyEnvRef emptyProfile 2).getD 1 fbDummy).color ≠ "black" :=
  have h := fb_path_structure pyEnvRef emptyProfile 2 (by decide) (by decide)
  ⟨h.1, h.2.1, (h.2.2.2.1 (by omega)).2⟩

theorem fbStyleColor_env_agree (env1 env2 : PyEnv) (p : UserProfile)
    (hset : ∀ xs, env1.setList xs = env2.setList xs) :
    ∀ i, fbStyleColor env1 p i = fbStyleColor env2 p i := by
  intro i
  simp only [fbStyleColor, hset]

theorem fbGo_env_agree (env1 env2 : PyEnv) (p : UserProfile)
    (hsc : ∀ i, fbStyleColor env1 p i = fbStyleColor env2 p i) :
    ∀ (cnt i : ℕ) (base : ℚ), fbGo env1 p base i cnt = fbGo env2 p base i cnt := by
  intro cnt
  induction cnt with
  | zero => intro i base; rfl
  | succ cnt ih => intro i base; simp only [fbGo, hsc, ih]

/-- C9: the dependency-free path is deterministic — its output is a
function of the profile, k, and the process environment only through the
hash values of the two resolved preference strings and the set iteration
order, so two runs in the same interpreter session (same hash seed, same
set order) on the same profile and k produce identical output. -/
theorem fb_two_run_determinism (env1 env2 : PyEnv) (p : UserProfile) (k : ℕ)
    (hhc : env1.hash (p.color_pref.getD "black") = env2.hash (p.color_pref.getD "black"))
    (hhs : env1.hash (p.style_pref.getD "streetwear") =
      env2.hash (p.style_pref.getD "streetwear"))
    (hset : ∀ xs, env1.setList xs = env2.setList xs) :
    get_recommendations_fb env1 p k = get_recommendations_fb env2 p k := by
  have hbase : fbBase env1 p = fbBase env2 p := by
    simp only [fbBase, hhc, hhs]
  simp only [get_recommendations_fb, hbase]
  exact fbGo_env_agree env1 env2 p (fbStyleColor_env_agree env1 env2 p hset) k 0
    (fbBase env2 p)

/-- C9 witness. -/
theorem fb_two_run_determinism_witness :
    get_recommendations_fb pyEnvRef emptyProfile 3 =
      get_recommendations_fb pyEnvAlt emptyProfile 3 :=
  fb_two_run_determinism pyEnvRef pyEnvAlt emptyProfile 3 (by decide) (by decide)
    (fun _ => rfl)

/-- C10: whenever the dependency-free path returns, the entry at position i
carries score round(base - 0.02 i, 4) with the seed base derived from the
profile (through the session's string hash); because the 0.02 step is a
multiple of the rounding grid these scores are strictly decreasing in
position, so the list is already ordered by score descending. -/
theorem fb_scores_arithmetic (env : PyEnv) (p : UserProfile) (k : ℕ) (recs : List FbRec)
    (h : get_recommendations_fb env p k = Except.ok recs) :
    recs.length = k ∧
    (∀ i, i < k → (recs.getD i fbDummy).score =
      pyRoundTo 4 (fbBase env p - (i : ℚ) * (2/100))) ∧
    recs.Pairwise (fun a b => b.score < a.score) := by
  obtain ⟨hlen, hspec⟩ := fbGo_ok_spec env p (fbBase env p) k 0 recs h
  have hscore : ∀ i, i < k → (recs.getD i fbDummy).score =
      pyRoundTo 4 (fbBase env p - (i : ℚ) * (2/100)) := by
    intro i hi
    obtain ⟨sc, hsc, hget⟩ := hspec i hi
    simp only [Nat.zero_add] at hget
    rw [hget]
    rfl
  refine ⟨hlen, hscore, ?_⟩
  rw [List.pairwise_iff_getElem]
  intro a b ha hb hab
  have hsa : recs[a].score = pyRoundTo 4 (fbBase env p) - (a : ℚ) * (2/100) := by
    have hx := hscore a (by omega)
    rw [List.getD_eq_getElem?_getD, List.getElem?_eq_getElem ha] at hx
    simpa [pyRoundTo4_shift] using hx
  have hsb : recs[b].score = pyRoundTo 4 (fbBase env p) - (b : ℚ) * (2/100) := by
    have hx := hscore b (by omega)
    rw [List.getD_eq_getElem?_getD, List.getElem?_eq_getElem hb] at hx
    simpa [pyRoundTo4_shift] using hx
  rw [hsa, hsb]
  have hcast : (a : ℚ) < (b : ℚ) := by exact_mod_cast hab
  linarith

/-- C10 witness. -/
theorem fb_scores_arithmetic_witness :
    (fbRecsD pyEnvRef emptyProfile 3).length = 3 ∧
    (fbRecsD pyEnvRef emptyProfile 3).Pairwise (fun a b => b.score < a.score) :=
  have h := fb_scores_arithmetic pyEnvRef emptyProfile 3 (fbRecsD pyEnvRef emptyProfile 3)
    (fb_total_ok pyEnvRef emptyProfile 3 (by decide) (by decide))
  ⟨h.1, h.2.2⟩
